import Mathlib

/-!
Verification of the room/turn engine of BetterUnoGame
(src/src/hooks/useRoomSystem.ts, src/src/types/Room.ts).

The data shapes (Card, Player, GameState, Room, RoomPlayer, RoomEvent)
follow src/src/types/Room.ts and the GameState interface as used by
useRoomSystem.ts.  The operations `initializeGameState`, `playCard`,
`drawCard` and the room-stream event reducer (`applyRoomEvent`) are
shallow embeddings of the corresponding code in useRoomSystem.ts.
-/

inductive CardColor where
  | red | yellow | green | blue | wild
deriving DecidableEq, Repr

inductive CardType where
  | number | skip | reverse | drawTwo | wild | wildDrawFour
deriving DecidableEq, Repr

structure Card where
  id : String
  color : CardColor
  type : CardType
  value : Option Nat
deriving DecidableEq, Repr

structure Player where
  id : String
  name : String
  cards : List Card
  isHuman : Bool
  hasCalledUno : Bool
deriving DecidableEq, Repr

inductive Direction where
  | clockwise | counterclockwise
deriving DecidableEq, Repr

inductive GamePhase where
  | dealing | playing | finished
deriving DecidableEq, Repr

structure GameState where
  players : List Player
  currentPlayerIndex : Nat
  direction : Direction
  topCard : Card
  drawPile : List Card
  discardPile : List Card
  gamePhase : GamePhase
  wildColor : Option CardColor
  winner : Option Player
  isBlockAllActive : Bool
deriving DecidableEq, Repr

structure RoomPlayer where
  id : String
  name : String
  isHost : Bool
  isReady : Bool
  joinedAt : Nat
deriving DecidableEq, Repr

inductive RoomStatus where
  | waiting | playing | finished
deriving DecidableEq, Repr

structure Room where
  id : String
  name : String
  hostId : String
  hostName : String
  maxPlayers : Nat
  currentPlayers : Int
  hasPassword : Bool
  password : Option String
  players : List RoomPlayer
  status : RoomStatus
  createdAt : Nat
  gameInProgress : Bool
deriving DecidableEq, Repr

inductive RoomEvent where
  | playerJoined (player : RoomPlayer)
  | playerLeft (playerId : String)
  | playerKicked (playerId : String)
  | roomUpdated (room : Room)
  | gameStarted
  | gameEnded
  | hostChanged (newHostId : String)
  | kickedFromRoom
deriving DecidableEq, Repr

/-- The fields of the RoomSystemState record held by useRoomSystem. -/
structure RoomSystemState where
  currentRoom : Option Room
  currentPlayerId : Option String
  isHost : Bool
  activeRooms : List Room
  loading : Bool
  error : Option String
  isConnected : Bool
  gameState : Option GameState
deriving DecidableEq, Repr

/-- One round of the dealing loop body `players.forEach(player => { if
(cardIndex < deck.length) player.cards.push(deck[cardIndex++]) })`. -/
def dealRound (deck : List Card) : List Player → Nat → List Player × Nat
  | [], ci => ([], ci)
  | p :: ps, ci =>
    if h : ci < deck.length then
      let rest := dealRound deck ps (ci + 1)
      ({ p with cards := p.cards ++ [deck.get ⟨ci, h⟩] } :: rest.1, rest.2)
    else
      let rest := dealRound deck ps ci
      (p :: rest.1, rest.2)

/-- The outer `for (let i = 0; i < 7; i++)` dealing loop, iterated `k` times. -/
def dealRounds (deck : List Card) : Nat → List Player → Nat → List Player × Nat
  | 0, ps, ci => (ps, ci)
  | k + 1, ps, ci =>
    let r := dealRound deck ps ci
    dealRounds deck k r.1 r.2

/-- Helper for the scan `while (topCardIndex < deck.length &&
deck[topCardIndex].type !== 'number') topCardIndex++`, walking the suffix of
the deck that starts at the current index. -/
def findTopAux : List Card → Nat → Nat
  | [], i => i
  | c :: rest, i =>
    if c.type = CardType.number then i else findTopAux rest (i + 1)

/-- Index of the first number-type card at position ≥ `start`
(`deck.length` when there is none), as computed by the while loop. -/
def findTopCardIndex (deck : List Card) (start : Nat) : Nat :=
  findTopAux (deck.drop start) start

/-- Shallow embedding of `initializeGameState` (useRoomSystem.ts lines
45-91).  The deck is a parameter standing for `shuffleDeck(createDeck())`,
whose code (src/utils/cardUtils) is not part of this slice; the claims
quantify over the deck.  `none` models the JavaScript state in which
`topCard` is `undefined` (both `deck[topCardIndex]` and `deck[cardIndex]`
out of range). -/
def initializeGameState (room : Room) (deck : List Card) : Option GameState :=
  let players0 : List Player := room.players.map fun rp =>
    { id := rp.id, name := rp.name, cards := [], isHuman := true,
      hasCalledUno := false }
  let dealt := dealRounds deck 7 players0 0
  let cardIndex := dealt.2
  let topCardIndex := findTopCardIndex deck cardIndex
  match (deck.get? topCardIndex).orElse (fun _ => deck.get? cardIndex) with
  | none => none
  | some topCard =>
    some { players := dealt.1
           currentPlayerIndex := 0
           direction := Direction.clockwise
           topCard := topCard
           drawPile := (deck.enum.filter fun pr =>
             pr.1 != topCardIndex && decide (cardIndex ≤ pr.1)).map Prod.snd
           discardPile := [topCard]
           gamePhase := GamePhase.playing
           wildColor := none
           winner := none
           isBlockAllActive := false }

/-- Shallow embedding of the `playCard` state update (useRoomSystem.ts
lines 232-265).  `none` models the JavaScript TypeError thrown when the
player is found but `players[currentPlayerIndex]` is `undefined` (the
short-circuit `!player ||` returns `prev` before `currentPlayer.id` is
read, hence the arm order). -/
def playCard (prev : GameState) (playerId : String) (card : Card)
    (chosenColor : Option CardColor) : Option GameState :=
  match prev.players.find? (fun p => p.id == playerId),
        prev.players[prev.currentPlayerIndex]? with
  | none, _ => some prev
  | some _, none => none
  | some player, some currentPlayer =>
    if player.id == currentPlayer.id then
      let i := prev.players.findIdx (fun p => p.id == playerId)
      let newCards := player.cards.filter (fun c => c.id != card.id)
      let updatedPlayer := { player with cards := newCards }
      let newPlayers := prev.players.set i updatedPlayer
      let newWildColor :=
        if card.type == CardType.wild || card.type == CardType.wildDrawFour
        then some (chosenColor.getD CardColor.red) else none
      if newCards.length == 0 then
        some { prev with
               players := newPlayers
               discardPile := prev.discardPile ++ [card]
               topCard := card
               wildColor := newWildColor
               gamePhase := GamePhase.finished
               winner := some updatedPlayer }
      else
        some { prev with
               players := newPlayers
               discardPile := prev.discardPile ++ [card]
               topCard := card
               wildColor := newWildColor
               currentPlayerIndex :=
                 (prev.currentPlayerIndex + 1) % prev.players.length }
    else some prev

/-- The `for (let i = 0; i < count; i++)` loop of `drawCard`: pop a card
off the tail of the draw pile (when non-empty) into the hand and the
drawn-cards list.  Returns (pile, hand, drawn). -/
def drawLoop : Nat → List Card → List Card → List Card →
    List Card × List Card × List Card
  | 0, pile, hand, drawn => (pile, hand, drawn)
  | k + 1, pile, hand, drawn =>
    match pile.getLast? with
    | some card => drawLoop k pile.dropLast (hand ++ [card]) (drawn ++ [card])
    | none => drawLoop k pile hand drawn

/-- Shallow embedding of the `drawCard` state update (useRoomSystem.ts
lines 275-294), returning the new state together with the drawn cards. -/
def drawCard (prev : GameState) (playerId : String) (count : Nat) :
    GameState × List Card :=
  match prev.players.find? (fun p => p.id == playerId) with
  | none => (prev, [])
  | some player =>
    let i := prev.players.findIdx (fun p => p.id == playerId)
    let r := drawLoop count prev.drawPile player.cards []
    ({ prev with
       drawPile := r.1
       players := prev.players.set i { player with cards := r.2.1 } }, r.2.2)

/-- Shallow embedding of the room-stream event switch (useRoomSystem.ts
lines 342-396).  PLAYER_KICKED, ROOM_UPDATED and GAME_ENDED hit the
default arm. -/
def applyRoomEvent (prev : RoomSystemState) (event : RoomEvent) :
    RoomSystemState :=
  match event with
  | RoomEvent.playerJoined player =>
    match prev.currentRoom with
    | some room =>
      { prev with currentRoom := some { room with
          players := room.players ++ [player]
          currentPlayers := room.currentPlayers + 1 } }
    | none => prev
  | RoomEvent.playerLeft playerId =>
    match prev.currentRoom with
    | some room =>
      { prev with currentRoom := some { room with
          players := room.players.filter (fun p => p.id != playerId)
          currentPlayers := room.currentPlayers - 1 } }
    | none => prev
  | RoomEvent.hostChanged newHostId =>
    let newIsHost := prev.currentPlayerId == some newHostId
    match prev.currentRoom with
    | some room =>
      { prev with
        currentRoom := some { room with
          hostId := newHostId
          players := room.players.map fun p =>
            { p with isHost := p.id == newHostId } }
        isHost := newIsHost }
    | none => { prev with isHost := newIsHost }
  | RoomEvent.gameStarted =>
    match prev.currentRoom with
    | some room =>
      { prev with currentRoom := some { room with
          status := RoomStatus.playing
          gameInProgress := true } }
    | none => prev
  | RoomEvent.kickedFromRoom =>
    { prev with
      currentRoom := none
      currentPlayerId := none
      isHost := false
      gameState := none
      error := some "Ban da bi kick khoi phong" }
  | _ => prev

/-- The multiset of card ids held anywhere in a game state: all hands,
then the draw pile, then the discard pile. -/
def gsAllCardIds (gs : GameState) : List String :=
  ((gs.players.flatMap fun p => p.cards) ++ gs.drawPile ++ gs.discardPile).map
    fun c => c.id

/-- The invariant `currentPlayers == players.length` on the local room,
trivially true when no room is joined. -/
def roomInv (s : RoomSystemState) : Prop :=
  ∀ room, s.currentRoom = some room →
    room.currentPlayers = (room.players.length : Int)

/-- Spec-side definition, following the spec's words only: advancing
`currentPlayerIndex` "by one position in the current direction modulo
roster size" (clockwise = forward, counter-clockwise = backward). -/
def stepIndexSpec : Direction → Nat → Nat → Nat
  | Direction.clockwise, i, n => (i + 1) % n
  | Direction.counterclockwise, i, n => (i + n - 1) % n

/-! ## Helper lemmas -/

theorem length_filter_ne_id (l : List RoomPlayer) (pid : String) :
    (l.filter fun p => p.id != pid).length
      = l.length - l.countP fun p => p.id == pid := by
  induction l with
  | nil => rfl
  | cons a t ih =>
    have hc := List.countP_le_length (p := fun p : RoomPlayer => p.id == pid)
      (l := t)
    by_cases h : a.id = pid
    · simp [List.filter_cons, List.countP_cons, h, ih]
    · simp [List.filter_cons, List.countP_cons, h, ih]
      omega

theorem drawLoop_eq (k : Nat) (pile hand drawn : List Card) :
    drawLoop k pile hand drawn =
      (pile.take (pile.length - min k pile.length),
       hand ++ (pile.drop (pile.length - min k pile.length)).reverse,
       drawn ++ (pile.drop (pile.length - min k pile.length)).reverse) := by
  induction k generalizing pile hand drawn with
  | zero => simp [drawLoop]
  | succ k ih =>
    rcases List.eq_nil_or_concat pile with rfl | ⟨ys, c, rfl⟩
    · simp [drawLoop, ih]
    · simp only [List.concat_eq_append]
      have hlast : (ys ++ [c]).getLast? = some c := List.getLast?_concat _
      have hdrop : (ys ++ [c]).dropLast = ys := List.dropLast_concat
      have ht : (ys ++ [c]).length - min (k + 1) (ys ++ [c]).length
          = ys.length - min k ys.length := by simp; omega
      have hle : ys.length - min k ys.length ≤ ys.length := by omega
      have hstep : drawLoop (k + 1) (ys ++ [c]) hand drawn
          = drawLoop k ys (hand ++ [c]) (drawn ++ [c]) := by
        rw [drawLoop, hlast, hdrop]
      rw [hstep, ih, ht, List.take_append_of_le_length hle,
        List.drop_append_of_le_length hle]
      simp

/-! ## Concrete inputs used by witnesses and counterexamples -/

def examplePlayerC2 : RoomPlayer :=
  { id := "a2", name := "Alice", isHost := true, isReady := true, joinedAt := 0 }

def exampleRoomC2 : Room :=
  { id := "r2", name := "room2", hostId := "a2", hostName := "Alice",
    maxPlayers := 4, currentPlayers := 1, hasPassword := false, password := none,
    players := [examplePlayerC2], status := RoomStatus.waiting, createdAt := 0,
    gameInProgress := false }

def exampleStateC2 : RoomSystemState :=
  { currentRoom := some exampleRoomC2, currentPlayerId := some "a2",
    isHost := true, activeRooms := [], loading := false, error := none,
    isConnected := true, gameState := none }

def examplePlayerC4 : RoomPlayer :=
  { id := "a4", name := "Ann", isHost := true, isReady := true, joinedAt := 0 }

def exampleRoomC4 : Room :=
  { id := "r4", name := "room4", hostId := "a4", hostName := "Ann",
    maxPlayers := 4, currentPlayers := 1, hasPassword := false, password := none,
    players := [examplePlayerC4], status := RoomStatus.waiting, createdAt := 0,
    gameInProgress := false }

def exampleStateC4 : RoomSystemState :=
  { currentRoom := some exampleRoomC4, currentPlayerId := some "a4",
    isHost := true, activeRooms := [], loading := false, error := none,
    isConnected := true, gameState := none }

def examplePlayerC5 : RoomPlayer :=
  { id := "a5", name := "Amy", isHost := true, isReady := true, joinedAt := 0 }

def exampleRoomC5 : Room :=
  { id := "r5", name := "room5", hostId := "a5", hostName := "Amy",
    maxPlayers := 4, currentPlayers := 1, hasPassword := false, password := none,
    players := [examplePlayerC5], status := RoomStatus.waiting, createdAt := 0,
    gameInProgress := false }

def exampleStateC5 : RoomSystemState :=
  { currentRoom := some exampleRoomC5, currentPlayerId := some "a5",
    isHost := true, activeRooms := [], loading := false, error := none,
    isConnected := true, gameState := none }

/-! ## Claim theorems -/

/-- C9: applying KICKED_FROM_ROOM, from any local state, resets currentRoom,
currentPlayerId, isHost and gameState to their empty/null defaults. -/
theorem kickedFromRoom_resets (s : RoomSystemState) :
    (applyRoomEvent s RoomEvent.kickedFromRoom).currentRoom = none ∧
    (applyRoomEvent s RoomEvent.kickedFromRoom).currentPlayerId = none ∧
    (applyRoomEvent s RoomEvent.kickedFromRoom).isHost = false ∧
    (applyRoomEvent s RoomEvent.kickedFromRoom).gameState = none :=
  ⟨rfl, rfl, rfl, rfl⟩

/-- C2 counterexample: applying PLAYER_JOINED with a player whose id is
already present in currentRoom.players is not a no-op; the player is
appended again and its id then occurs twice. -/
theorem playerJoined_duplicate_cex :
    applyRoomEvent exampleStateC2 (RoomEvent.playerJoined examplePlayerC2)
      ≠ exampleStateC2 ∧
    ((applyRoomEvent exampleStateC2
        (RoomEvent.playerJoined examplePlayerC2)).currentRoom.map
      fun r => r.players.countP fun q => q.id == examplePlayerC2.id)
      = some 2 := by
  decide

/-- C2 amended: whenever a current room exists, PLAYER_JOINED
unconditionally appends the event's player to currentRoom.players and
increments currentPlayers — there is no already-present check, so a
duplicate delivery produces a duplicate RoomPlayer entry. -/
theorem playerJoined_appends (s : RoomSystemState) (room : Room)
    (player : RoomPlayer) (h : s.currentRoom = some room) :
    applyRoomEvent s (RoomEvent.playerJoined player) =
      { s with currentRoom := some { room with
          players := room.players ++ [player]
          currentPlayers := room.currentPlayers + 1 } } := by
  simp [applyRoomEvent, h]

theorem playerJoined_appends_witness :
    exampleStateC2.currentRoom = some exampleRoomC2 ∧
    applyRoomEvent exampleStateC2 (RoomEvent.playerJoined examplePlayerC2) =
      { exampleStateC2 with currentRoom := some { exampleRoomC2 with
          players := exampleRoomC2.players ++ [examplePlayerC2]
          currentPlayers := exampleRoomC2.currentPlayers + 1 } } :=
  ⟨rfl, playerJoined_appends exampleStateC2 exampleRoomC2 examplePlayerC2 rfl⟩

/-- C4 counterexample: PLAYER_LEFT with an id absent from
currentRoom.players decrements currentPlayers without removing any
RoomPlayer, so currentPlayers == players.length is broken
(currentPlayers becomes 0 while one player remains). -/
theorem playerLeft_ghost_cex :
    ((applyRoomEvent exampleStateC4 (RoomEvent.playerLeft "ghost")).currentRoom.map
      fun r => (r.currentPlayers, (r.players.length : Int))) = some (0, 1) := by
  decide

/-- C4 amended: every room-stream event preserves
currentPlayers == players.length except PLAYER_LEFT with an id that does
not occur exactly once in currentRoom.players; under the extra hypothesis
that a PLAYER_LEFT id occurs exactly once, the invariant is preserved by
every event. -/
theorem roomInv_preserved (s : RoomSystemState) (e : RoomEvent)
    (hinv : roomInv s)
    (hleft : ∀ pid room, e = RoomEvent.playerLeft pid →
      s.currentRoom = some room →
      room.players.countP (fun p => p.id == pid) = 1) :
    roomInv (applyRoomEvent s e) := by
  intro room' h'
  cases e with
  | playerJoined p =>
    cases hq : s.currentRoom with
    | none => simp [applyRoomEvent, hq] at h'
    | some room =>
      have hI := hinv room hq
      simp only [applyRoomEvent, hq, Option.some.injEq] at h'
      subst h'
      simp
      omega
  | playerLeft pid =>
    cases hq : s.currentRoom with
    | none => simp [applyRoomEvent, hq] at h'
    | some room =>
      have hI := hinv room hq
      have hc := hleft pid room rfl hq
      have hf := length_filter_ne_id room.players pid
      have hle := List.countP_le_length
        (p := fun p : RoomPlayer => p.id == pid) (l := room.players)
      simp only [applyRoomEvent, hq, Option.some.injEq] at h'
      subst h'
      simp only []
      omega
  | hostChanged hid =>
    cases hq : s.currentRoom with
    | none => simp [applyRoomEvent, hq] at h'
    | some room =>
      have hI := hinv room hq
      simp only [applyRoomEvent, hq, Option.some.injEq] at h'
      subst h'
      simpa using hI
  | gameStarted =>
    cases hq : s.currentRoom with
    | none => simp [applyRoomEvent, hq] at h'
    | some room =>
      have hI := hinv room hq
      simp only [applyRoomEvent, hq, Option.some.injEq] at h'
      subst h'
      simpa using hI
  | kickedFromRoom => simp [applyRoomEvent] at h'
  | playerKicked pid => exact hinv room' h'
  | roomUpdated r => exact hinv room' h'
  | gameEnded => exact hinv room' h'

theorem roomInv_preserved_witness :
    roomInv exampleStateC4 ∧
    roomInv (applyRoomEvent exampleStateC4 (RoomEvent.playerLeft "a4")) :=
  ⟨fun room hr => by
      simp only [exampleStateC4, Option.some.injEq] at hr
      subst hr; decide,
   roomInv_preserved exampleStateC4 (RoomEvent.playerLeft "a4")
     (fun room hr => by
       simp only [exampleStateC4, Option.some.injEq] at hr
       subst hr; decide)
     (by
       rintro pid room h1 h2
       cases h1
       simp only [exampleStateC4, Option.some.injEq] at h2
       subst h2; decide)⟩

/-- C5 counterexample: on a non-empty room, HOST_CHANGED with a newHostId
that belongs to no RoomPlayer sets every isHost flag to false, so no
RoomPlayer (rather than exactly one) has isHost = true afterwards. -/
theorem hostChanged_absent_cex :
    exampleRoomC5.players.length = 1 ∧
    ((applyRoomEvent exampleStateC5 (RoomEvent.hostChanged "nobody")).currentRoom.map
      fun r => r.players.countP fun p => p.isHost) = some 0 := by
  decide

/-- C5 amended: after HOST_CHANGED, a RoomPlayer has isHost = true exactly
when its id equals newHostId; hence exactly one RoomPlayer has
isHost = true provided newHostId occurs exactly once among the players'
ids, and the local isHost flag always equals
(currentPlayerId == newHostId). -/
theorem hostChanged_unique_host (s : RoomSystemState) (room : Room)
    (hid : String) (hroom : s.currentRoom = some room)
    (hcount : room.players.countP (fun p => p.id == hid) = 1) :
    ((applyRoomEvent s (RoomEvent.hostChanged hid)).currentRoom.map
      fun r => r.players.countP fun p => p.isHost) = some 1 ∧
    (applyRoomEvent s (RoomEvent.hostChanged hid)).isHost
      = (s.currentPlayerId == some hid) := by
  refine ⟨?_, by simp [applyRoomEvent, hroom]⟩
  simp only [applyRoomEvent, hroom, Option.map_some', Option.some.injEq]
  rw [List.countP_map]
  exact hcount

theorem hostChanged_unique_host_witness :
    exampleStateC5.currentRoom = some exampleRoomC5 ∧
    exampleRoomC5.players.countP (fun p => p.id == "a5") = 1 ∧
    (((applyRoomEvent exampleStateC5 (RoomEvent.hostChanged "a5")).currentRoom.map
      fun r => r.players.countP fun p => p.isHost) = some 1 ∧
    (applyRoomEvent exampleStateC5 (RoomEvent.hostChanged "a5")).isHost
      = (exampleStateC5.currentPlayerId == some "a5")) :=
  ⟨rfl, by decide,
   hostChanged_unique_host exampleStateC5 exampleRoomC5 "a5" rfl (by decide)⟩

def numCard (idStr : String) (v : Nat) : Card :=
  { id := idStr, color := CardColor.red, type := CardType.number,
    value := some v }

def skipCard (idStr : String) : Card :=
  { id := idStr, color := CardColor.blue, type := CardType.skip, value := none }

def mkPlayer (pid : String) (cards : List Card) : Player :=
  { id := pid, name := pid, cards := cards, isHuman := true,
    hasCalledUno := false }

def mkGame (ps : List Player) (idx : Nat) (dir : Direction)
    (top : Card) (pile : List Card) : GameState :=
  { players := ps, currentPlayerIndex := idx, direction := dir,
    topCard := top, drawPile := pile, discardPile := [top],
    gamePhase := GamePhase.playing, wildColor := none, winner := none,
    isBlockAllActive := false }

/-- An 8-card deck whose only card past the 7-card dealt boundary is a
skip card: the top-card scan finds no number card and falls back to
`deck[cardIndex]` without excluding that index from the remaining deck. -/
def bugDeckC1 : List Card :=
  [numCard "c0" 0, numCard "c1" 1, numCard "c2" 2, numCard "c3" 3,
   numCard "c4" 4, numCard "c5" 5, numCard "c6" 6, skipCard "c7"]

def bugRoomC1 : Room :=
  { id := "r1", name := "room1", hostId := "P1", hostName := "P1",
    maxPlayers := 4, currentPlayers := 1, hasPassword := false,
    password := none,
    players := [{ id := "P1", name := "P1", isHost := true, isReady := true,
                  joinedAt := 0 }],
    status := RoomStatus.waiting, createdAt := 0, gameInProgress := false }

/-- C1 (bug evaluation): with one roster player and `bugDeckC1`, the
fallback top card ends up both in drawPile and in discardPile: its id
occurs twice among the dealt state's card ids, and 9 card ids are present
although the deck holds 8 distinct ids — the no-loss/no-duplication
partition claimed for initializeGameState fails. -/
theorem initializeGameState_bug_eval :
    ((initializeGameState bugRoomC1 bugDeckC1).map
      fun gs => (gsAllCardIds gs).count "c7") = some 2 ∧
    ((initializeGameState bugRoomC1 bugDeckC1).map
      fun gs => (gsAllCardIds gs).length) = some 9 ∧
    (bugDeckC1.map fun c => c.id).count "c7" = 1 ∧
    bugDeckC1.length = 8 ∧
    (bugDeckC1.map fun c => c.id).Nodup := by
  decide

def playerC6a : Player := mkPlayer "pa" [numCard "k1" 1]

def exampleGameC6 : GameState :=
  mkGame [playerC6a, mkPlayer "pb" [numCard "k2" 2]] 0
    Direction.clockwise (numCard "k0" 0) []

/-- C6: a playCard call whose playerId differs from the current player's
id returns the previous state unchanged (the rejection is silent: the
code reports no error value).  Stated for states whose
currentPlayerIndex is in range, as the code reads
players[currentPlayerIndex].id on this path. -/
theorem playCard_not_your_turn (s : GameState) (pid : String) (card : Card)
    (col : Option CardColor) (cp : Player)
    (hcp : s.players[s.currentPlayerIndex]? = some cp)
    (hne : pid ≠ cp.id) :
    playCard s pid card col = some s := by
  cases hfind : s.players.find? (fun p => p.id == pid) with
  | none => simp [playCard, hfind, hcp]
  | some player =>
    have hpid : player.id = pid := by
      simpa using List.find?_some hfind
    simp [playCard, hfind, hcp, hpid, hne]

theorem playCard_not_your_turn_witness :
    exampleGameC6.players[exampleGameC6.currentPlayerIndex]?
      = some playerC6a ∧
    "pb" ≠ playerC6a.id ∧
    playCard exampleGameC6 "pb" (numCard "k2" 2) none = some exampleGameC6 :=
  ⟨rfl, by decide,
   playCard_not_your_turn exampleGameC6 "pb" (numCard "k2" 2) none playerC6a
     rfl (by decide)⟩

def handCardC3 : Card := numCard "h3" 3

def ghostCardC3 : Card := numCard "g3" 9

def examplePlayerC3 : Player := mkPlayer "p3" [handCardC3]

def exampleGameC3 : GameState :=
  mkGame [examplePlayerC3] 0 Direction.clockwise (numCard "t3" 0) []

/-- C3 counterexample: the current player plays a card whose id is absent
from their hand; far from being rejected with an unchanged state, the call
changes the GameState — the foreign card becomes topCard (and is appended
to the discard pile). -/
theorem playCard_missing_card_cex :
    exampleGameC3.players[exampleGameC3.currentPlayerIndex]?
      = some examplePlayerC3 ∧
    ghostCardC3.id ∉ examplePlayerC3.cards.map Card.id ∧
    playCard exampleGameC3 "p3" ghostCardC3 none ≠ some exampleGameC3 ∧
    ((playCard exampleGameC3 "p3" ghostCardC3 none).map GameState.topCard)
      = some ghostCardC3 := by
  decide

/-- C3 amended: playCard performs no card-in-hand check.  When the current
player plays a card whose id is absent from their hand, the hand is left
exactly as it was (the removal filter removes nothing), yet the card is
still appended to discardPile and becomes topCard. -/
theorem playCard_no_hand_check (s : GameState) (pid : String) (card : Card)
    (col : Option CardColor) (p cp : Player)
    (hp : s.players.find? (fun q => q.id == pid) = some p)
    (hcp : s.players[s.currentPlayerIndex]? = some cp)
    (hid : p.id = cp.id)
    (habs : ∀ c ∈ p.cards, c.id ≠ card.id) :
    ∃ s', playCard s pid card col = some s' ∧ s'.topCard = card ∧
      s'.discardPile = s.discardPile ++ [card] ∧
      s'.players[s.players.findIdx fun q => q.id == pid]? = some p := by
  have hmem : p ∈ s.players := List.mem_of_find?_eq_some hp
  have hpred := List.find?_some hp
  have hidx : s.players.findIdx (fun q => q.id == pid) < s.players.length :=
    List.findIdx_lt_length_of_exists ⟨p, hmem, hpred⟩
  have hfilter : p.cards.filter (fun c => c.id != card.id) = p.cards :=
    List.filter_eq_self.mpr (fun c hc => by simpa using habs c hc)
  have hset : (s.players.set (s.players.findIdx fun q => q.id == pid) p)[
      s.players.findIdx fun q => q.id == pid]? = some p :=
    List.getElem?_set_self hidx
  have hbeq : (p.id == cp.id) = true := by simp [hid]
  simp only [playCard, hp, hcp, hbeq, if_true, hfilter]
  split
  · exact ⟨_, rfl, rfl, rfl, hset⟩
  · exact ⟨_, rfl, rfl, rfl, hset⟩

theorem playCard_no_hand_check_witness :
    (∀ c ∈ examplePlayerC3.cards, c.id ≠ ghostCardC3.id) ∧
    ∃ s', playCard exampleGameC3 "p3" ghostCardC3 none = some s' ∧
      s'.topCard = ghostCardC3 ∧
      s'.discardPile = exampleGameC3.discardPile ++ [ghostCardC3] ∧
      s'.players[exampleGameC3.players.findIdx fun q => q.id == "p3"]?
        = some examplePlayerC3 :=
  ⟨by decide,
   playCard_no_hand_check exampleGameC3 "p3" ghostCardC3 none examplePlayerC3
     examplePlayerC3 rfl rfl rfl (by decide)⟩

def exampleGameC7 : GameState :=
  mkGame [mkPlayer "p7" []] 0 Direction.clockwise (numCard "t7" 0)
    [numCard "d1" 1, numCard "d2" 2, numCard "d3" 3]

/-- C7: drawCard for a player present in the roster returns exactly
min(count, drawPile.length) cards, taken from the tail of the draw pile
(the remaining pile is the matching prefix, and the returned cards are the
popped tail segment in pop order); the pile shrinks and that player's hand
grows by exactly that amount.  No turn-ownership hypothesis is required:
the code performs no such check. -/
theorem drawCard_conservation (s : GameState) (pid : String) (k : Nat)
    (p : Player) (hp : s.players.find? (fun q => q.id == pid) = some p) :
    (drawCard s pid k).2.length = min k s.drawPile.length ∧
    (drawCard s pid k).1.drawPile
      = s.drawPile.take (s.drawPile.length - min k s.drawPile.length) ∧
    (drawCard s pid k).1.drawPile.length
      = s.drawPile.length - min k s.drawPile.length ∧
    (drawCard s pid k).1.players[s.players.findIdx fun q => q.id == pid]?
      = some { p with cards := p.cards ++
          (s.drawPile.drop
            (s.drawPile.length - min k s.drawPile.length)).reverse } ∧
    ((drawCard s pid k).1.players[s.players.findIdx fun q => q.id == pid]?).map
      (fun q => q.cards.length)
      = some (p.cards.length + min k s.drawPile.length) := by
  have hmem : p ∈ s.players := List.mem_of_find?_eq_some hp
  have hpred := List.find?_some hp
  have hidx : s.players.findIdx (fun q => q.id == pid) < s.players.length :=
    List.findIdx_lt_length_of_exists ⟨p, hmem, hpred⟩
  have hset : (s.players.set (s.players.findIdx fun q => q.id == pid)
      { p with cards := p.cards ++
        (s.drawPile.drop
          (s.drawPile.length - min k s.drawPile.length)).reverse })[
      s.players.findIdx fun q => q.id == pid]?
      = some { p with cards := p.cards ++
        (s.drawPile.drop
          (s.drawPile.length - min k s.drawPile.length)).reverse } :=
    List.getElem?_set_self hidx
  have hmin : min k s.drawPile.length ≤ s.drawPile.length :=
    Nat.min_le_right _ _
  simp only [drawCard, hp, drawLoop_eq, List.nil_append]
  refine ⟨?_, trivial, ?_, hset, ?_⟩
  · simp only [List.length_reverse, List.length_drop]
    omega
  · simp only [List.length_take]
    omega
  · rw [hset]
    simp only [Option.map_some', Option.some.injEq, List.length_append,
      List.length_reverse, List.length_drop]
    omega

theorem drawCard_conservation_witness :
    exampleGameC7.players.find? (fun q => q.id == "p7")
      = some (mkPlayer "p7" []) ∧
    ((drawCard exampleGameC7 "p7" 2).2.length
        = min 2 exampleGameC7.drawPile.length ∧
      (drawCard exampleGameC7 "p7" 2).1.drawPile
        = exampleGameC7.drawPile.take
            (exampleGameC7.drawPile.length
              - min 2 exampleGameC7.drawPile.length) ∧
      (drawCard exampleGameC7 "p7" 2).1.drawPile.length
        = exampleGameC7.drawPile.length
            - min 2 exampleGameC7.drawPile.length ∧
      (drawCard exampleGameC7 "p7" 2).1.players[
          exampleGameC7.players.findIdx fun q => q.id == "p7"]?
        = some { mkPlayer "p7" [] with cards := (mkPlayer "p7" []).cards ++
            (exampleGameC7.drawPile.drop
              (exampleGameC7.drawPile.length
                - min 2 exampleGameC7.drawPile.length)).reverse } ∧
      ((drawCard exampleGameC7 "p7" 2).1.players[
          exampleGameC7.players.findIdx fun q => q.id == "p7"]?).map
        (fun q => q.cards.length)
        = some ((mkPlayer "p7" []).cards.length
            + min 2 exampleGameC7.drawPile.length)) :=
  ⟨rfl, drawCard_conservation exampleGameC7 "p7" 2 (mkPlayer "p7" []) rfl⟩

def playedCardC8 : Card := numCard "w1" 1

def exampleGameC8 : GameState :=
  mkGame [mkPlayer "r1" [playedCardC8, numCard "w2" 2],
          mkPlayer "r2" [numCard "w3" 3]] 0
    Direction.clockwise (numCard "t8" 0) []

def playedCardC8x : Card := numCard "x1" 1

def exampleGameC8x : GameState :=
  mkGame [mkPlayer "q1" [playedCardC8x, numCard "x2" 2],
          mkPlayer "q2" [numCard "x3" 3],
          mkPlayer "q3" [numCard "x4" 4]] 0
    Direction.counterclockwise (numCard "t9" 0) []

/-- C8 counterexample: in a counter-clockwise game with three players, a
successful play by the current player (index 0) moves currentPlayerIndex
to 1, not to 2 as "one position in the current direction modulo the
roster size" (stepIndexSpec) prescribes — the code always advances
clockwise and ignores the direction field. -/
theorem playCard_direction_cex :
    exampleGameC8x.direction = Direction.counterclockwise ∧
    ((playCard exampleGameC8x "q1" playedCardC8x none).map
      GameState.currentPlayerIndex) = some 1 ∧
    stepIndexSpec exampleGameC8x.direction exampleGameC8x.currentPlayerIndex
      exampleGameC8x.players.length = 2 := by
  decide

/-- C8 amended: on a successful play by the current player, if the hand
becomes empty then gamePhase becomes finished, winner is set to that
player and currentPlayerIndex does not advance; otherwise
currentPlayerIndex advances by exactly one position clockwise,
(i + 1) mod roster size, regardless of the direction field. -/
theorem playCard_win_or_advance (s : GameState) (pid : String) (card : Card)
    (col : Option CardColor) (p cp : Player)
    (hp : s.players.find? (fun q => q.id == pid) = some p)
    (hcp : s.players[s.currentPlayerIndex]? = some cp)
    (hid : p.id = cp.id) :
    ∃ s', playCard s pid card col = some s' ∧
      ((p.cards.filter fun c => c.id != card.id) = [] →
        s'.gamePhase = GamePhase.finished ∧
        s'.winner = some { p with cards := [] } ∧
        s'.currentPlayerIndex = s.currentPlayerIndex) ∧
      ((p.cards.filter fun c => c.id != card.id) ≠ [] →
        s'.gamePhase = s.gamePhase ∧ s'.winner = s.winner ∧
        s'.currentPlayerIndex
          = (s.currentPlayerIndex + 1) % s.players.length) := by
  simp only [playCard, hp, hcp, hid, beq_self_eq_true, if_true]
  split
  case isTrue h =>
    have hnil : (p.cards.filter fun c => c.id != card.id) = [] :=
      List.length_eq_zero.mp (by simpa using h)
    exact ⟨_, rfl, fun _ => ⟨rfl, by rw [hnil], rfl⟩, fun hne => absurd hnil hne⟩
  case isFalse h =>
    have hnil : (p.cards.filter fun c => c.id != card.id) ≠ [] := by
      intro hx
      exact h (by simp [hx])
    exact ⟨_, rfl, fun hx => absurd hx hnil, fun _ => ⟨rfl, rfl, rfl⟩⟩

theorem playCard_win_or_advance_witness :
    exampleGameC8.players.find? (fun q => q.id == "r1")
      = some (mkPlayer "r1" [playedCardC8, numCard "w2" 2]) ∧
    exampleGameC8.players[exampleGameC8.currentPlayerIndex]?
      = some (mkPlayer "r1" [playedCardC8, numCard "w2" 2]) ∧
    ∃ s', playCard exampleGameC8 "r1" playedCardC8 none = some s' ∧
      (((mkPlayer "r1" [playedCardC8, numCard "w2" 2]).cards.filter
          fun c => c.id != playedCardC8.id) = [] →
        s'.gamePhase = GamePhase.finished ∧
        s'.winner = some { mkPlayer "r1" [playedCardC8, numCard "w2" 2] with
          cards := [] } ∧
        s'.currentPlayerIndex = exampleGameC8.currentPlayerIndex) ∧
      (((mkPlayer "r1" [playedCardC8, numCard "w2" 2]).cards.filter
          fun c => c.id != playedCardC8.id) ≠ [] →
        s'.gamePhase = exampleGameC8.gamePhase ∧
        s'.winner = exampleGameC8.winner ∧
        s'.currentPlayerIndex = (exampleGameC8.currentPlayerIndex + 1)
          % exampleGameC8.players.length) :=
  ⟨rfl, rfl,
   playCard_win_or_advance exampleGameC8 "r1" playedCardC8 none
     (mkPlayer "r1" [playedCardC8, numCard "w2" 2])
     (mkPlayer "r1" [playedCardC8, numCard "w2" 2]) rfl rfl rfl⟩

def exampleGameC10 : GameState :=
  mkGame [mkPlayer "pz" [numCard "z1" 1]] 0 Direction.clockwise
    (numCard "t10" 0) [numCard "z2" 2]

/-- C10: drawCard called with a playerId that appears nowhere in
GameState.players draws nothing — it returns an empty list and leaves the
GameState unchanged. -/
theorem drawCard_unknown_player (s : GameState) (pid : String) (k : Nat)
    (h : ∀ p ∈ s.players, p.id ≠ pid) :
    drawCard s pid k = (s, []) := by
  have hfind : s.players.find? (fun q => q.id == pid) = none :=
    List.find?_eq_none.mpr (fun q hq => by simpa using h q hq)
  simp [drawCard, hfind]

theorem drawCard_unknown_player_witness :
    (∀ p ∈ exampleGameC10.players, p.id ≠ "nobody") ∧
    drawCard exampleGameC10 "nobody" 3 = (exampleGameC10, []) :=
  ⟨by decide,
   drawCard_unknown_player exampleGameC10 "nobody" 3 (by decide)⟩
